import Mathlib

/-!
Shallow embedding of the request-pipeline layer of the mutuals-backend
repository: pagination parsing, response envelope formatting, the
authentication / authorization / validation middleware, the cache-aside
middleware pair, the rate-limiter configurations and the login service.
Definitions are translated from the TypeScript sources; JavaScript
peculiarities (truthiness, `parseInt` returning `NaN`, `Math.max` with
`NaN`) are modelled explicitly.  `Option Int` models a JS number that may
be `NaN` (`none` = `NaN`).
-/

namespace Mutuals

/-- JSON values, the payloads carried by `res.json(...)`. -/
inductive Json where
  | jnull
  | jbool (b : Bool)
  | jnum (n : Int)
  | jstr (s : String)
  | jarr (elems : List Json)
  | jobj (fields : List (String × Json))

/-- JavaScript truthiness of a JSON value (objects and arrays are always
truthy, `null`/`false`/`0`/`""` are falsy). -/
def Json.truthy : Json → Bool
  | .jnull => false
  | .jbool b => b
  | .jnum n => decide (n ≠ 0)
  | .jstr s => decide (s ≠ "")
  | .jarr _ => true
  | .jobj _ => true

/-- Whitespace skipped by JavaScript `parseInt`. -/
def jsIsSpace (c : Char) : Bool :=
  c = ' ' ∨ c = '\t' ∨ c = '\n' ∨ c = '\r'

/-- Accumulate a list of decimal digit characters into a natural number. -/
def digitsToNat (ds : List Char) : Nat :=
  ds.foldl (fun a c => 10 * a + (c.toNat - '0'.toNat)) 0

/-- JavaScript `parseInt(s, 10)`: skip leading whitespace, read an optional
sign and then the maximal run of decimal digits; if that run is empty the
result is `NaN`, modelled as `none`. -/
def jsParseInt (s : String) : Option Int :=
  let cs := s.data.dropWhile jsIsSpace
  match cs with
  | '-' :: rest =>
      let ds := rest.takeWhile Char.isDigit
      if ds.isEmpty then none else some (-(digitsToNat ds : Int))
  | '+' :: rest =>
      let ds := rest.takeWhile Char.isDigit
      if ds.isEmpty then none else some (digitsToNat ds : Int)
  | _ =>
      let ds := cs.takeWhile Char.isDigit
      if ds.isEmpty then none else some (digitsToNat ds : Int)

/-- JavaScript `Math.max` on two numbers; `NaN` (`none`) is absorbing. -/
def jsMax (a b : Option Int) : Option Int :=
  match a, b with
  | some x, some y => some (max x y)
  | _, _ => none

/-- JavaScript `Math.min` on two numbers; `NaN` (`none`) is absorbing. -/
def jsMin (a b : Option Int) : Option Int :=
  match a, b with
  | some x, some y => some (min x y)
  | _, _ => none

/-- JavaScript subtraction with `NaN` propagation. -/
def jsSub (a b : Option Int) : Option Int :=
  match a, b with
  | some x, some y => some (x - y)
  | _, _ => none

/-- JavaScript multiplication with `NaN` propagation. -/
def jsMul (a b : Option Int) : Option Int :=
  match a, b with
  | some x, some y => some (x * y)
  | _, _ => none

/-- A raw query-parameter value: Express delivers strings, the declared
TypeScript type also admits numbers. -/
inductive QueryVal where
  | vstr (s : String)
  | vnum (n : Int)
deriving DecidableEq

/-- JavaScript truthiness of a query value. -/
def QueryVal.truthy : QueryVal → Bool
  | .vstr s => decide (s ≠ "")
  | .vnum n => decide (n ≠ 0)

/-- JavaScript `String(v)` on a query value. -/
def QueryVal.jsString : QueryVal → String
  | .vstr s => s
  | .vnum n => toString n

/-- JavaScript `v || d` for an optional query value with a numeric default:
the default is used when the value is absent or falsy. -/
def jsOrNum (v : Option QueryVal) (d : Int) : QueryVal :=
  match v with
  | some w => if w.truthy then w else .vnum d
  | none => .vnum d

/-- Relevant fields of the `PaginationQuery` interface. -/
structure PaginationQuery where
  page : Option QueryVal
  limit : Option QueryVal
deriving DecidableEq

/-- Result record of `parsePaginationParams`; every field is a JS number
and hence possibly `NaN`. -/
structure PaginationParams where
  skip : Option Int
  take : Option Int
  page : Option Int
  limit : Option Int
deriving DecidableEq

/-- Embedding of `parsePaginationParams` (src/common/utils/pagination.util):
`page = Math.max(1, parseInt(String(query.page || 1), 10))`,
`limit = Math.min(100, Math.max(1, parseInt(String(query.limit || 10), 10)))`,
`skip = (page - 1) * limit`. -/
def parsePaginationParams (query : PaginationQuery) : PaginationParams :=
  let page := jsMax (some 1) (jsParseInt (jsOrNum query.page 1).jsString)
  let limit := jsMin (some 100) (jsMax (some 1) (jsParseInt (jsOrNum query.limit 10).jsString))
  let skip := jsMul (jsSub page (some 1)) limit
  { skip := skip, take := limit, page := page, limit := limit }

/-- Pagination metadata.  `totalPages` is `Math.ceil(total / limit)`; when
`limit = 0` the JS division yields `Infinity` (or `NaN` for `0/0`), modelled
as `none`. -/
structure PaginationMeta where
  total : Nat
  page : Nat
  limit : Nat
  totalPages : Option Nat
deriving DecidableEq

/-- JavaScript `Math.ceil(total / limit)` for natural inputs. -/
def mathCeilDiv (total limit : Nat) : Option Nat :=
  if limit = 0 then none else some ((total + limit - 1) / limit)

/-- Embedding of `calculatePaginationMeta` (src/common/utils/pagination.util). -/
def calculatePaginationMeta (total page limit : Nat) : PaginationMeta :=
  { total := total, page := page, limit := limit, totalPages := mathCeilDiv total limit }

/-- Serialization of pagination metadata; `JSON.stringify` turns a
non-finite `totalPages` into `null`. -/
def PaginationMeta.toJson (m : PaginationMeta) : Json :=
  .jobj [("total", .jnum m.total), ("page", .jnum m.page), ("limit", .jnum m.limit),
         ("totalPages", match m.totalPages with | some n => .jnum n | none => .jnull)]

/-- A response as produced by `res.status(code).json(body)`: status code and
JSON body. -/
abbrev HttpResponse : Type := Nat × Json

namespace ResponseUtil

/-- Embedding of `ResponseUtil.success` (src/common/utils/response.util):
`{success: true, message, data, ...(meta && {meta})}` sent with the given
status code; the `meta` spread fires exactly when `meta` is present (a
present meta record is an object, hence truthy). -/
def success (data : Json) (message : String) (statusCode : Nat)
    (meta : Option PaginationMeta) : HttpResponse :=
  (statusCode,
   .jobj ([("success", .jbool true), ("message", .jstr message), ("data", data)] ++
     (match meta with
      | some m => [("meta", m.toJson)]
      | none => [])))

/-- Embedding of `ResponseUtil.error`:
`{success: false, message, ...(errors && {data: errors})}`; the spread fires
only when `errors` is supplied and truthy. -/
def error (message : String) (statusCode : Nat) (errors : Option Json) : HttpResponse :=
  (statusCode,
   .jobj ([("success", .jbool false), ("message", .jstr message)] ++
     (match errors with
      | some e => if e.truthy then [("data", e)] else []
      | none => [])))

/-- Embedding of `ResponseUtil.created`: `success` with status 201. -/
def created (data : Json) (message : String) : HttpResponse :=
  success data message 201 none

/-- Embedding of `ResponseUtil.paginated`: builds
`{total, page, limit, totalPages: Math.ceil(total / limit)}` and delegates
to `success` with status 200. -/
def paginated (data : List Json) (total page limit : Nat) (message : String) : HttpResponse :=
  let totalPages := mathCeilDiv total limit
  success (.jarr data) message 200
    (some { total := total, page := page, limit := limit, totalPages := totalPages })

end ResponseUtil

/-- Shape check for the response envelope
`{success: boolean, message: string, data?, meta?}`. -/
def envelopeShape : Json → Bool
  | .jobj (("success", .jbool _) :: ("message", .jstr _) :: rest) =>
      match rest with
      | [] => true
      | [("data", _)] => true
      | [("meta", _)] => true
      | [("data", _), ("meta", _)] => true
      | _ => false
  | _ => false

/-- The identity decoded from a verified token (`AuthUser` in
src/common/types). -/
structure AuthUser where
  id : String
  email : String
  role : String
deriving DecidableEq

/-- Errors thrown by `jwt.verify`.  In the `jsonwebtoken` library both
`TokenExpiredError` and `NotBeforeError` are subclasses of
`JsonWebTokenError`. -/
inductive JwtError where
  | jsonWebTokenError
  | tokenExpiredError
  | notBeforeError
deriving DecidableEq

/-- JavaScript `error instanceof jwt.JsonWebTokenError`: true for the whole
class hierarchy, expired and not-before errors included. -/
def JwtError.isJsonWebTokenError : JwtError → Bool := fun _ => true

/-- JavaScript `error instanceof jwt.TokenExpiredError`. -/
def JwtError.isTokenExpiredError : JwtError → Bool
  | .tokenExpiredError => true
  | _ => false

/-- Outcome of an authentication/authorization middleware step:
`fail message statusCode` models `next(new AppError(message, statusCode))`
(the terminal error handler then responds with that status and
`{success: false, message}`), `ok user` models attaching the identity to
`req.user` and calling `next()`. -/
inductive AuthResult where
  | fail (message : String) (statusCode : Nat)
  | ok (user : AuthUser)
deriving DecidableEq

/-- JavaScript `s.startsWith(pre)`. -/
def jsStartsWith (s pre : String) : Bool :=
  pre.data.isPrefixOf s.data

/-- JavaScript `s.split(sep)` for a one-character separator: splits on every
occurrence, keeping empty segments. -/
def jsSplitChars (sep : Char) : List Char → List Char → List String
  | [], acc => [String.mk acc.reverse]
  | c :: cs, acc =>
      if c = sep then String.mk acc.reverse :: jsSplitChars sep cs []
      else jsSplitChars sep cs (c :: acc)

/-- JavaScript `s.split(sep)` on strings. -/
def jsSplit (s : String) (sep : Char) : List String :=
  jsSplitChars sep s.data []

/-- Embedding of the `authenticate` middleware
(src/common/middleware/auth.middleware): bearer-token extraction from the
`Authorization` header, then `jwt.verify` (passed in as `verify`), with the
source's catch block checking `instanceof jwt.JsonWebTokenError` before
`instanceof jwt.TokenExpiredError`. -/
def authenticate (verify : String → Except JwtError AuthUser)
    (authHeader : Option String) : AuthResult :=
  match authHeader with
  | none => .fail "No token provided" 401
  | some h =>
    if h = "" then .fail "No token provided" 401
    else if ¬ jsStartsWith h "Bearer " then .fail "No token provided" 401
    else
      let token := ((jsSplit h ' ').getD 1 "")
      if token = "" then .fail "No token provided" 401
      else
        match verify token with
        | .ok u => .ok u
        | .error e =>
          if e.isJsonWebTokenError then .fail "Invalid token" 401
          else if e.isTokenExpiredError then .fail "Token expired" 401
          else .fail "Internal server error" 500

/-- The request as seen by `authorize`: the identity attached by
`authenticate` (if any) and the request body. -/
structure AuthRequest where
  user : Option AuthUser
  body : Json

/-- Embedding of the `authorize(...roles)` middleware
(src/common/middleware/auth.middleware): 401 when no identity is attached,
403 when the identity's role is not in the permitted list
(`roles.includes(req.user.role)`), otherwise pass through. -/
def authorize (roles : List String) (req : AuthRequest) : AuthResult :=
  match req.user with
  | none => .fail "Not authenticated" 401
  | some u =>
    if ¬ (u.role ∈ roles) then .fail "Not authorized to access this resource" 403
    else .ok u

/-- One field-level validation error, as produced by
`express-validator`'s `errors.array()`. -/
structure FieldError where
  field : String
  message : String
deriving DecidableEq

/-- A declared validation chain for one field: the predicate the field must
satisfy and the message reported when it does not. -/
structure ValidationRule where
  field : String
  message : String
  check : Json → Bool

/-- Embedding of `express-validator` evaluation as consumed by
`validationResult(req)`: every declared chain runs against the request (the
repository's validators use no `bail()`), and every failure is recorded, so
the error list holds one entry per violated rule, in declaration order. -/
def runValidationChains (rules : List ValidationRule) (body : Json) : List FieldError :=
  rules.filterMap (fun r => if r.check body then none else some ⟨r.field, r.message⟩)

/-- Serialization of the collected field errors (`errors.array()`). -/
def errorsToJson (errs : List FieldError) : Json :=
  .jarr (errs.map (fun e => .jobj [("field", .jstr e.field), ("message", .jstr e.message)]))

/-- Outcome of a middleware that either responds itself or passes control
on. -/
inductive MwStep where
  | respond (status : Nat) (body : Json)
  | next

/-- Embedding of the `validate` middleware
(src/common/middleware/validation.middleware): if `validationResult(req)` is
non-empty, respond through
`ResponseUtil.error(res, 'Validation failed', 400, errors.array())` and do
not call `next()`; otherwise call `next()`. -/
def validate (rules : List ValidationRule) (body : Json) : MwStep :=
  let errors := runValidationChains rules body
  if ¬ errors.isEmpty then
    .respond (ResponseUtil.error "Validation failed" 400 (some (errorsToJson errors))).1
             (ResponseUtil.error "Validation failed" 400 (some (errorsToJson errors))).2
  else .next

/-- One Redis cache entry: key, stored JSON value and absolute expiry
instant (`SETEX key ttl value` at time `t` sets expiry `t + ttl`; the key
exists for times strictly before the expiry instant). -/
structure CacheEntry where
  key : String
  value : Json
  expiresAt : Nat

/-- The key-value store backing `CacheService`. -/
abbrev CacheStore : Type := List CacheEntry

/-- Redis `GET`: the stored value when the key exists and is not yet
expired. -/
def redisGet (store : CacheStore) (now : Nat) (key : String) : Option Json :=
  match store.find? (fun e => e.key = key) with
  | some e => if now < e.expiresAt then some e.value else none
  | none => none

/-- Redis `SETEX`: overwrite the key with the value and a fresh TTL. -/
def redisSetex (store : CacheStore) (now : Nat) (key : String) (ttl : Nat)
    (value : Json) : CacheStore :=
  ⟨key, value, now + ttl⟩ :: store.filter (fun e => ¬ (e.key = key))

/-- Redis `KEYS` glob matching on character lists: `*` matches any sequence,
`?` any single character, other characters literally. -/
def globMatchList : List Char → List Char → Bool
  | [], [] => true
  | [], _ :: _ => false
  | '*' :: ps, [] => globMatchList ps []
  | '*' :: ps, c :: cs => globMatchList ps (c :: cs) || globMatchList ('*' :: ps) cs
  | '?' :: _, [] => false
  | '?' :: ps, _ :: cs => globMatchList ps cs
  | _ :: _, [] => false
  | p :: ps, c :: cs => p = c && globMatchList ps cs
termination_by ps cs => (ps.length, cs.length)

/-- Redis `KEYS` glob matching on strings. -/
def globMatch (pattern key : String) : Bool :=
  globMatchList pattern.data key.data

/-- Embedding of `CacheService.get` (src/common/utils/cache.util): `null`
when the Redis client is unavailable or the key is absent, otherwise the
parsed stored value.  `redisOk = false` models an unavailable or failing
store; errors are caught and turned into `null`. -/
def CacheService.get (redisOk : Bool) (store : CacheStore) (now : Nat)
    (key : String) : Option Json :=
  if redisOk then redisGet store now key else none

/-- Embedding of `CacheService.set`: `SETEX` with the given TTL; when the
Redis client is unavailable or failing the store is left unchanged and the
error is swallowed. -/
def CacheService.setex (redisOk : Bool) (store : CacheStore) (now : Nat)
    (key : String) (value : Json) (ttl : Nat) : CacheStore :=
  if redisOk then redisSetex store now key ttl value else store

/-- Embedding of `CacheService.deletePattern`: `KEYS pattern` then `DEL` of
every match; when the Redis client is unavailable or failing the store is
left unchanged and the error is swallowed. -/
def CacheService.deletePattern (redisOk : Bool) (store : CacheStore)
    (pattern : String) : CacheStore :=
  if redisOk then store.filter (fun e => ¬ globMatch pattern e.key) else store

/-- The request fields read by the cache middleware. -/
structure HttpRequest where
  method : String
  originalUrl : String
  url : String

/-- Outcome of running a cache middleware around a downstream handler:
the response sent, the resulting cache store and whether the downstream
handler ran. -/
structure MwOutcome where
  status : Nat
  body : Json
  store : CacheStore
  handlerCalled : Bool

/-- The cache key computed by `cacheMiddleware`:
`cache:${req.originalUrl || req.url}`. -/
def cacheKey (req : HttpRequest) : String :=
  "cache:" ++ (if req.originalUrl = "" then req.url else req.originalUrl)

/-- Embedding of `cacheMiddleware(ttl)`
(src/common/middleware/cache.middleware).  Non-GET requests pass straight
through.  For a GET, the middleware looks the key up; when the cached value
is truthy it is replayed via `res.json` (the response status is the default
200 and the downstream handler never runs).  Otherwise `res.json` is
overridden, the downstream handler runs and produces `(status, body)`, and
the override stores the body under the key with the configured TTL — with
no check of the response status — before forwarding the response
unchanged.  Store failures (`redisOk = false`) are swallowed and never
change the response. -/
def cacheMiddleware (ttl : Nat) (redisOk : Bool) (handler : Nat × Json)
    (req : HttpRequest) (store : CacheStore) (now : Nat) : MwOutcome :=
  if req.method ≠ "GET" then
    { status := handler.1, body := handler.2, store := store, handlerCalled := true }
  else
    let key := cacheKey req
    match CacheService.get redisOk store now key with
    | some v =>
      if v.truthy then
        { status := 200, body := v, store := store, handlerCalled := false }
      else
        { status := handler.1, body := handler.2,
          store := CacheService.setex redisOk store now key handler.2 ttl,
          handlerCalled := true }
    | none =>
        { status := handler.1, body := handler.2,
          store := CacheService.setex redisOk store now key handler.2 ttl,
          handlerCalled := true }

/-- Embedding of `clearCacheMiddleware(patterns)`
(src/common/middleware/cache.middleware): `res.json` is overridden so that
when the downstream response status is 2xx every declared pattern is passed
to `CacheService.deletePattern`; the original response is always forwarded
unchanged, store failures included. -/
def clearCacheMiddleware (patterns : List String) (redisOk : Bool)
    (handler : Nat × Json) (store : CacheStore) : MwOutcome :=
  let store' :=
    if 200 ≤ handler.1 ∧ handler.1 < 300 then
      patterns.foldl (fun s p => CacheService.deletePattern redisOk s p) store
    else store
  { status := handler.1, body := handler.2, store := store', handlerCalled := true }

/-- The `message` object configured on a rate limiter, sent as the JSON
body of a 429 response. -/
structure RateLimitMessage where
  success : Bool
  message : String
deriving DecidableEq

/-- An `express-rate-limit` configuration as declared in
src/common/middleware/rate-limiter.middleware.  `windowMs` and
`maxRequests` are JS numbers (the general limiter reads them from the
environment through `parseInt`, hence `Option Int`). -/
structure RateLimitConfig where
  windowMs : Option Int
  maxRequests : Option Int
  message : RateLimitMessage
  skipSuccessfulRequests : Bool
  standardHeaders : Option Bool
  legacyHeaders : Option Bool
deriving DecidableEq

/-- Environment configuration read by the general limiter. -/
structure EnvConfig where
  RATE_LIMIT_WINDOW_MS : Option Int
  RATE_LIMIT_MAX_REQUESTS : Option Int
deriving DecidableEq

/-- JavaScript `v || d` on an optional environment string. -/
def jsOrStr (v : Option String) (d : String) : String :=
  match v with
  | some s => if s = "" then d else s
  | none => d

/-- Embedding of the env parsing (src/common/config/env.config):
`RATE_LIMIT_WINDOW_MS: parseInt(process.env.RATE_LIMIT_WINDOW_MS || '900000', 10)`
and `RATE_LIMIT_MAX_REQUESTS: parseInt(process.env.RATE_LIMIT_MAX_REQUESTS || '100', 10)`. -/
def envFrom (windowVar maxVar : Option String) : EnvConfig :=
  { RATE_LIMIT_WINDOW_MS := jsParseInt (jsOrStr windowVar "900000"),
    RATE_LIMIT_MAX_REQUESTS := jsParseInt (jsOrStr maxVar "100") }

/-- Embedding of `apiLimiter`: general API traffic, window and maximum from
the environment. -/
def apiLimiter (env : EnvConfig) : RateLimitConfig :=
  { windowMs := env.RATE_LIMIT_WINDOW_MS,
    maxRequests := env.RATE_LIMIT_MAX_REQUESTS,
    message := ⟨false, "Too many requests from this IP, please try again later."⟩,
    skipSuccessfulRequests := false,
    standardHeaders := some true,
    legacyHeaders := some false }

/-- Embedding of `authLimiter`: 5 requests per 15 minutes,
`skipSuccessfulRequests: true`. -/
def authLimiter : RateLimitConfig :=
  { windowMs := some (15 * 60 * 1000),
    maxRequests := some 5,
    message := ⟨false, "Too many login attempts, please try again after 15 minutes."⟩,
    skipSuccessfulRequests := true,
    standardHeaders := none,
    legacyHeaders := none }

/-- Embedding of `newsletterLimiter`: 3 requests per hour. -/
def newsletterLimiter : RateLimitConfig :=
  { windowMs := some (60 * 60 * 1000),
    maxRequests := some 3,
    message := ⟨false, "Too many subscription requests, please try again later."⟩,
    skipSuccessfulRequests := false,
    standardHeaders := none,
    legacyHeaders := none }

/-- Embedding of `submissionLimiter`: 5 requests per hour. -/
def submissionLimiter : RateLimitConfig :=
  { windowMs := some (60 * 60 * 1000),
    maxRequests := some 5,
    message := ⟨false, "Too many submissions, please try again later."⟩,
    skipSuccessfulRequests := false,
    standardHeaders := none,
    legacyHeaders := none }

/-- Embedding of `uploadLimiter`: 10 requests per 15 minutes. -/
def uploadLimiter : RateLimitConfig :=
  { windowMs := some (15 * 60 * 1000),
    maxRequests := some 10,
    message := ⟨false, "Too many upload requests, please try again later."⟩,
    skipSuccessfulRequests := false,
    standardHeaders := none,
    legacyHeaders := none }

/-- Per-client counter state of one limiter instance: hit count and window
start. -/
abbrev LimiterCounters : Type := List (String × Nat × Nat)

/-- One hit in `express-rate-limit`'s fixed-window store: a fresh or elapsed
window restarts the counter at 1, otherwise the count increments. -/
def hitOnce (windowMs : Nat) (st : Option (Nat × Nat)) (now : Nat) : Nat × Nat :=
  match st with
  | none => (1, now)
  | some (c, start) => if start + windowMs ≤ now then (1, now) else (c + 1, start)

/-- Record one hit from `client` at time `now` in a limiter's counter
table. -/
def updateCounter (windowMs : Nat) (counters : LimiterCounters) (client : String)
    (now : Nat) : LimiterCounters :=
  let st := (counters.find? (fun e => e.1 = client)).map (fun e => e.2)
  (client, hitOnce windowMs st now) :: counters.filter (fun e => ¬ (e.1 = client))

/-- Current hit count of `client` in a counter table. -/
def getCount (counters : LimiterCounters) (client : String) : Nat :=
  ((counters.find? (fun e => e.1 = client)).map (fun e => e.2.1)).getD 0

/-- Iterate `n` hits from the same client, all at time `now`. -/
def hitN (windowMs : Nat) (n : Nat) (client : String) (now : Nat)
    (counters : LimiterCounters) : LimiterCounters :=
  match n with
  | 0 => counters
  | n + 1 => updateCounter windowMs (hitN windowMs n client now counters) client now

/-- The limiter blocks a request exactly when its hit count exceeds the
configured maximum. -/
def limiterBlocks (maxRequests : Nat) (count : Nat) : Bool :=
  maxRequests < count

/-- The response `express-rate-limit` sends when a request is blocked:
status 429 with the configured `message` object as JSON body. -/
def limiterRespond (cfg : RateLimitConfig) : HttpResponse :=
  (429, .jobj [("success", .jbool cfg.message.success),
               ("message", .jstr cfg.message.message)])

/-- With `skipSuccessfulRequests`, a request whose response turns out
successful (status < 400; 2xx in particular) is un-counted once the
response is known. -/
def onResponseFinish (skipSuccessfulRequests : Bool) (status : Nat) (count : Nat) : Nat :=
  if skipSuccessfulRequests ∧ status < 400 then count - 1 else count

/-- Each `rateLimit(...)` call creates its own in-memory store: the five
route groups count independently. -/
structure RateLimiterStores where
  api : LimiterCounters
  auth : LimiterCounters
  newsletter : LimiterCounters
  submission : LimiterCounters
  upload : LimiterCounters

/-- A hit on the auth limiter touches only the auth namespace. -/
def hitAuthGroup (s : RateLimiterStores) (windowMs : Nat) (client : String)
    (now : Nat) : RateLimiterStores :=
  { s with auth := updateCounter windowMs s.auth client now }

/-- A hit on the general API limiter touches only its namespace. -/
def hitApiGroup (s : RateLimiterStores) (windowMs : Nat) (client : String)
    (now : Nat) : RateLimiterStores :=
  { s with api := updateCounter windowMs s.api client now }

/-- A user row as read by `AuthService.login` (Prisma `user` table). -/
structure UserRecord where
  id : String
  email : String
  password : String
  firstName : String
  lastName : String
  role : String
  isActive : Bool

/-- Embedding of `prisma.user.findUnique({where: {email}})`. -/
def findUniqueByEmail (db : List UserRecord) (email : String) : Option UserRecord :=
  db.find? (fun u => u.email = email)

/-- The login request body. -/
structure LoginData where
  email : String
  password : String

/-- Result of `AuthService.login`: a thrown `AppError` (message, status) or
the success payload. -/
inductive LoginResult where
  | failure (message : String) (statusCode : Nat)
  | success (id email firstName lastName role accessToken refreshToken : String)
deriving DecidableEq

/-- Embedding of `AuthService.login` (src/modules/auth/auth.service): look
the user up by email (absent → `AppError('Invalid credentials', 401)`),
reject deactivated accounts (`AppError('Account is deactivated', 401)`),
check the password with `bcrypt.compare` (mismatch →
`AppError('Invalid credentials', 401)`), then issue tokens.  `compare`,
`genAccessToken` and `genRefreshToken` abstract bcrypt and `jwt.sign`. -/
def login (compare : String → String → Bool)
    (genAccessToken : String → String → String → String)
    (genRefreshToken : String → String)
    (db : List UserRecord) (data : LoginData) : LoginResult :=
  match findUniqueByEmail db data.email with
  | none => .failure "Invalid credentials" 401
  | some user =>
    if ¬ user.isActive then .failure "Account is deactivated" 401
    else if ¬ compare data.password user.password then .failure "Invalid credentials" 401
    else .success user.id user.email user.firstName user.lastName user.role
        (genAccessToken user.id user.email user.role) (genRefreshToken user.id)

/-- A `verify` that rejects every token as expired (correctly signed but
past its expiry: `jwt.verify` throws `TokenExpiredError`). -/
def verifyAlwaysExpired : String → Except JwtError AuthUser :=
  fun _ => .error .tokenExpiredError

/-- A `verify` that rejects every token with a signature failure. -/
def verifyAlwaysBadSignature : String → Except JwtError AuthUser :=
  fun _ => .error .jsonWebTokenError

/-- A concrete decoded identity. -/
def demoUser : AuthUser := ⟨"user-1", "admin@mutualsplus.com", "ADMIN"⟩

/-- A `verify` that accepts every token and decodes `demoUser`. -/
def verifyAlwaysOk : String → Except JwtError AuthUser :=
  fun _ => .ok demoUser

/-- A concrete GET request to a listing route. -/
def articlesReq : HttpRequest :=
  { method := "GET", originalUrl := "/api/articles", url := "/api/articles" }

/-- A concrete non-successful (404) response body. -/
def notFoundBody : Json :=
  .jobj [("success", .jbool false), ("message", .jstr "Article not found")]

/-- A concrete successful response body. -/
def articlesBody : Json :=
  .jobj [("success", .jbool true), ("message", .jstr "Success"), ("data", .jarr [])]

/-- A second, distinct successful response body. -/
def articlesBody2 : Json :=
  .jobj [("success", .jbool true), ("message", .jstr "Success"),
         ("data", .jarr [.jstr "fresh"])]

/-- A cache store whose entry for the articles key holds the falsy JSON
value `false`, unexpired until instant 100. -/
def falsyStore : CacheStore :=
  [{ key := "cache:/api/articles", value := .jbool false, expiresAt := 100 }]

/-- A concrete active user row. -/
def demoDbUser : UserRecord :=
  { id := "u-1", email := "admin@mutualsplus.com", password := "bcrypt-hash",
    firstName := "Ada", lastName := "Admin", role := "ADMIN", isActive := true }

end Mutuals

namespace Mutuals

/-- C1.  The claim quantifies over every pagination input, strings
included; on a non-numeric string `parseInt` returns `NaN` and
`Math.max(1, NaN)` is `NaN`, so the returned page is not clamped to a
number at least 1: input `{page: "abc"}` yields `page = NaN`. -/
theorem C1_counterexample :
    (parsePaginationParams ⟨some (QueryVal.vstr "abc"), none⟩).page = none ∧
    ¬ ∃ p : Int, (parsePaginationParams ⟨some (QueryVal.vstr "abc"), none⟩).page = some p ∧
      1 ≤ p := by
  refine ⟨by decide, ?_⟩
  rintro ⟨p, hp, -⟩
  rw [show (parsePaginationParams ⟨some (QueryVal.vstr "abc"), none⟩).page = none by decide] at hp
  exact Option.noConfusion hp

/-- C1 (amended).  Whenever the parsed page is a number it is at least 1,
whenever the parsed limit is a number it lies in `[1, 100]`; the skip is
always `(page - 1) * limit` in NaN-propagating JS arithmetic and `take`
equals `limit`; absent parameters default to page 1 and limit 10, and the
input `{page: 0, limit: 500}` yields `{page: 1, limit: 100}` with skip 0.
Non-numeric strings yield `NaN` fields instead of clamped numbers. -/
theorem C1_pagination_clamped (q : PaginationQuery) :
    (∀ p : Int, (parsePaginationParams q).page = some p → 1 ≤ p) ∧
    (∀ l : Int, (parsePaginationParams q).limit = some l → 1 ≤ l ∧ l ≤ 100) ∧
    (parsePaginationParams q).skip =
      jsMul (jsSub (parsePaginationParams q).page (some 1)) (parsePaginationParams q).limit ∧
    (parsePaginationParams q).take = (parsePaginationParams q).limit ∧
    parsePaginationParams ⟨none, none⟩ =
      { skip := some 0, take := some 10, page := some 1, limit := some 10 } ∧
    parsePaginationParams ⟨some (.vnum 0), some (.vnum 500)⟩ =
      { skip := some 0, take := some 100, page := some 1, limit := some 100 } := by
  refine ⟨?_, ?_, rfl, rfl, by decide, by decide⟩
  · intro p hp
    have hp' : jsMax (some 1) (jsParseInt (jsOrNum q.page 1).jsString) = some p := hp
    cases h : jsParseInt (jsOrNum q.page 1).jsString with
    | none => rw [h] at hp'; exact Option.noConfusion hp'
    | some y =>
        rw [h] at hp'
        simp only [jsMax, Option.some.injEq] at hp'
        omega
  · intro l hl
    have hl' : jsMin (some 100) (jsMax (some 1) (jsParseInt (jsOrNum q.limit 10).jsString)) =
        some l := hl
    cases h : jsParseInt (jsOrNum q.limit 10).jsString with
    | none => rw [h] at hl'; exact Option.noConfusion hl'
    | some y =>
        rw [h] at hl'
        simp only [jsMax, jsMin, Option.some.injEq] at hl'
        omega

/-- C1 (witness): at the default input the clamped page is 1 and the
clamped limit is 10, both in range. -/
theorem C1_pagination_clamped_witness : (1 : Int) ≤ 1 ∧ ((1 : Int) ≤ 10 ∧ (10 : Int) ≤ 100) :=
  ⟨(C1_pagination_clamped ⟨none, none⟩).1 1 (by decide),
   (C1_pagination_clamped ⟨none, none⟩).2.1 10 (by decide)⟩

/-- C2.  In the `jsonwebtoken` library `TokenExpiredError` is a subclass of
`JsonWebTokenError`, and the catch block of `authenticate` tests
`instanceof jwt.JsonWebTokenError` first, so an expired token is answered
with 401 "Invalid token" — the "Token expired" branch is unreachable.  The
remaining branches behave as documented: missing or non-bearer header gives
401 "No token provided", a signature failure gives 401 "Invalid token", and
a valid token attaches the decoded identity and passes control on. -/
theorem C2_expired_token_gets_invalid_token_message :
    authenticate verifyAlwaysExpired (some "Bearer expired.jwt.token") =
      .fail "Invalid token" 401 ∧
    JwtError.isTokenExpiredError .tokenExpiredError = true ∧
    authenticate verifyAlwaysExpired (some "Bearer expired.jwt.token") ≠
      .fail "Token expired" 401 ∧
    authenticate verifyAlwaysOk none = .fail "No token provided" 401 ∧
    authenticate verifyAlwaysOk (some "Basic dXNlcjpwdw") = .fail "No token provided" 401 ∧
    authenticate verifyAlwaysOk (some "Bearer ") = .fail "No token provided" 401 ∧
    authenticate verifyAlwaysBadSignature (some "Bearer tampered.jwt") =
      .fail "Invalid token" 401 ∧
    authenticate verifyAlwaysOk (some "Bearer good.jwt") = .ok demoUser := by
  decide

/-- C7.  `authorize(roles)` fails with 401 when no identity is attached,
fails with 403 when the attached identity's role is not in the permitted
list — for every request body — and otherwise passes the request through
unchanged. -/
theorem C7_authorize_role_gate (roles : List String) (req : AuthRequest) :
    (req.user = none → authorize roles req = .fail "Not authenticated" 401) ∧
    (∀ u : AuthUser, req.user = some u → u.role ∉ roles →
      authorize roles req = .fail "Not authorized to access this resource" 403) ∧
    (∀ u : AuthUser, req.user = some u → u.role ∈ roles → authorize roles req = .ok u) := by
  refine ⟨fun h => ?_, fun u hu hrole => ?_, fun u hu hrole => ?_⟩
  · simp [authorize, h]
  · simp [authorize, hu, hrole]
  · simp [authorize, hu, hrole]

/-- C7 (witness): an EDITOR identity is rejected with 403 by a route
permitting only ADMIN, and the same identity passes an EDITOR route. -/
theorem C7_authorize_role_gate_witness :
    authorize ["ADMIN"] ⟨some ⟨"user-2", "editor@mutualsplus.com", "EDITOR"⟩, Json.jnull⟩ =
      .fail "Not authorized to access this resource" 403 ∧
    authorize ["ADMIN", "EDITOR"]
        ⟨some ⟨"user-2", "editor@mutualsplus.com", "EDITOR"⟩, Json.jnull⟩ =
      .ok ⟨"user-2", "editor@mutualsplus.com", "EDITOR"⟩ :=
  ⟨(C7_authorize_role_gate ["ADMIN"] _).2.1 ⟨"user-2", "editor@mutualsplus.com", "EDITOR"⟩
      rfl (by decide),
   (C7_authorize_role_gate ["ADMIN", "EDITOR"] _).2.2
      ⟨"user-2", "editor@mutualsplus.com", "EDITOR"⟩ rfl (by decide)⟩

/-- C3.  `cacheMiddleware` has no status check in its `res.json` override:
a GET cache miss whose downstream response is a 404 still writes the error
body into the cache, so non-successful responses are cached, contrary to
the claim. -/
theorem C3_counterexample :
    ¬ (200 ≤ 404 ∧ 404 < 300) ∧
    (cacheMiddleware 300 true (404, notFoundBody) articlesReq [] 0).status = 404 ∧
    redisGet (cacheMiddleware 300 true (404, notFoundBody) articlesReq [] 0).store 0
      "cache:/api/articles" = some notFoundBody := by
  exact ⟨by omega, rfl, rfl⟩

/-- C3 (amended).  `cacheMiddleware` writes a cache entry exactly on a GET
cache miss (no cached value, or a cached value that is JS-falsy): the
downstream response body — successful or not — is stored under the
computed key with the configured TTL; a truthy cache hit and a non-GET
request leave the store unchanged. -/
theorem C3_cache_write_on_get_miss (ttl : Nat) (redisOk : Bool) (handler : Nat × Json)
    (req : HttpRequest) (store : CacheStore) (now : Nat) :
    (req.method = "GET" → CacheService.get redisOk store now (cacheKey req) = none →
      (cacheMiddleware ttl redisOk handler req store now).store =
        CacheService.setex redisOk store now (cacheKey req) handler.2 ttl) ∧
    (req.method = "GET" → ∀ v, CacheService.get redisOk store now (cacheKey req) = some v →
      v.truthy = false →
      (cacheMiddleware ttl redisOk handler req store now).store =
        CacheService.setex redisOk store now (cacheKey req) handler.2 ttl) ∧
    (req.method = "GET" → ∀ v, CacheService.get redisOk store now (cacheKey req) = some v →
      v.truthy = true →
      (cacheMiddleware ttl redisOk handler req store now).store = store) ∧
    (req.method ≠ "GET" → (cacheMiddleware ttl redisOk handler req store now).store = store) := by
  refine ⟨fun hm hn => ?_, fun hm v hv hf => ?_, fun hm v hv ht => ?_, fun hm => ?_⟩
  · simp [cacheMiddleware, hm, hn]
  · simp [cacheMiddleware, hm, hv, hf]
  · simp [cacheMiddleware, hm, hv, ht]
  · simp [cacheMiddleware, hm]

/-- C3 (witness): a 404 miss on an empty store writes the 404 body. -/
theorem C3_cache_write_on_get_miss_witness :
    (cacheMiddleware 300 true (404, notFoundBody) articlesReq [] 0).store =
      CacheService.setex true [] 0 (cacheKey articlesReq) notFoundBody 300 :=
  (C3_cache_write_on_get_miss 300 true (404, notFoundBody) articlesReq [] 0).1 rfl rfl

/-- C4.  The hit test of `cacheMiddleware` is JS truthiness of the cached
value, not presence of the key: with the falsy value `false` stored and
unexpired under the computed key, the middleware still invokes the
downstream handler, contrary to the claim that a present key is always
served from the cache. -/
theorem C4_counterexample :
    redisGet falsyStore 0 "cache:/api/articles" = some (Json.jbool false) ∧
    (cacheMiddleware 300 true (200, articlesBody) articlesReq falsyStore 0).handlerCalled
      = true := by
  exact ⟨rfl, rfl⟩

/-- C4 (amended).  For every GET whose computed key holds an unexpired
truthy cached value, `cacheMiddleware` responds with that value directly,
with the default success status 200, and the downstream handler is not
invoked.  Consequently a GET miss whose (truthy) response was cached at
time `now` is replayed identically within the TTL window (`now2 < now +
ttl`): the second identical GET returns the same body with status 200 and
the second downstream handler never runs. -/
theorem C4_cache_hit_replay (ttl : Nat) (redisOk : Bool) (handler handler2 : Nat × Json)
    (req : HttpRequest) (store : CacheStore) (now now2 : Nat) :
    (∀ v, req.method = "GET" → CacheService.get redisOk store now (cacheKey req) = some v →
      v.truthy = true →
      cacheMiddleware ttl redisOk handler req store now =
        { status := 200, body := v, store := store, handlerCalled := false }) ∧
    (req.method = "GET" → CacheService.get true store now (cacheKey req) = none →
      handler.2.truthy = true → now ≤ now2 → now2 < now + ttl →
      (cacheMiddleware ttl true handler req store now).handlerCalled = true ∧
      (cacheMiddleware ttl true handler req store now).body = handler.2 ∧
      cacheMiddleware ttl true handler2 req
          (cacheMiddleware ttl true handler req store now).store now2 =
        { status := 200, body := handler.2,
          store := (cacheMiddleware ttl true handler req store now).store,
          handlerCalled := false }) := by
  constructor
  · intro v hm hv ht
    simp [cacheMiddleware, hm, hv, ht]
  · intro hm hn htr h1 h2
    have hstore : (cacheMiddleware ttl true handler req store now).store =
        redisSetex store now (cacheKey req) ttl handler.2 := by
      simp [cacheMiddleware, hm, hn, CacheService.setex]
    have hget2 : CacheService.get true (redisSetex store now (cacheKey req) ttl handler.2)
        now2 (cacheKey req) = some handler.2 := by
      simp only [CacheService.get, if_true, redisSetex, redisGet]
      rw [List.find?_cons_of_pos _ (by simp)]
      simp [h2]
    refine ⟨by simp [cacheMiddleware, hm, hn], by simp [cacheMiddleware, hm, hn], ?_⟩
    rw [hstore]
    simp [cacheMiddleware, hm, hget2, htr]

/-- C4 (witness): a concrete miss-then-hit pair on the articles route; the
second GET replays the first body and does not call its handler. -/
theorem C4_cache_hit_replay_witness :
    (cacheMiddleware 300 true (200, articlesBody) articlesReq [] 0).handlerCalled = true ∧
    (cacheMiddleware 300 true (200, articlesBody) articlesReq [] 0).body = articlesBody ∧
    cacheMiddleware 300 true (200, articlesBody2) articlesReq
        (cacheMiddleware 300 true (200, articlesBody) articlesReq [] 0).store 10 =
      { status := 200, body := articlesBody,
        store := (cacheMiddleware 300 true (200, articlesBody) articlesReq [] 0).store,
        handlerCalled := false } :=
  (C4_cache_hit_replay 300 true (200, articlesBody) (200, articlesBody2) articlesReq [] 0 10).2
    rfl rfl rfl (by omega) (by omega)

/-- C5.  `clearCacheMiddleware` always forwards the downstream response
unchanged (for any store health), purges every declared pattern through
`CacheService.deletePattern` exactly when the response status is 2xx,
leaves the store untouched otherwise, `deletePattern` removes every key
matching its glob pattern, and a failing store is left unchanged without
affecting the response. -/
theorem C5_clear_cache_on_success (patterns : List String) (redisOk : Bool)
    (handler : Nat × Json) (store : CacheStore) :
    (clearCacheMiddleware patterns redisOk handler store).status = handler.1 ∧
    (clearCacheMiddleware patterns redisOk handler store).body = handler.2 ∧
    (clearCacheMiddleware patterns redisOk handler store).handlerCalled = true ∧
    (200 ≤ handler.1 ∧ handler.1 < 300 →
      (clearCacheMiddleware patterns redisOk handler store).store =
        patterns.foldl (fun s p => CacheService.deletePattern redisOk s p) store) ∧
    (¬ (200 ≤ handler.1 ∧ handler.1 < 300) →
      (clearCacheMiddleware patterns redisOk handler store).store = store) ∧
    (∀ p e, e ∈ CacheService.deletePattern true store p → globMatch p e.key = false) ∧
    (∀ p, CacheService.deletePattern false store p = store) := by
  refine ⟨rfl, rfl, rfl, fun h => ?_, fun h => ?_, fun p e he => ?_, fun p => rfl⟩
  · simp [clearCacheMiddleware, h]
  · simp [clearCacheMiddleware, h]
  · simp only [CacheService.deletePattern, if_true] at he
    have := List.of_mem_filter he
    simpa using this

/-- C5 (witness): a 201 write purges the declared patterns from the store;
a 404 write leaves it untouched. -/
theorem C5_clear_cache_on_success_witness :
    (clearCacheMiddleware ["cache:/api/articles*"] true (201, articlesBody) falsyStore).store =
      ["cache:/api/articles*"].foldl (fun s p => CacheService.deletePattern true s p)
        falsyStore ∧
    (clearCacheMiddleware ["cache:/api/articles*"] true (404, notFoundBody) falsyStore).store =
      falsyStore :=
  ⟨(C5_clear_cache_on_success ["cache:/api/articles*"] true (201, articlesBody)
      falsyStore).2.2.2.1 (by omega),
   (C5_clear_cache_on_success ["cache:/api/articles*"] true (404, notFoundBody)
      falsyStore).2.2.2.2.1 (by omega)⟩

/-- C6.  The validation evaluation records one field error per violated
rule (no short-circuiting); when at least one violation exists `validate`
responds 400 with the envelope
`{success: false, message: "Validation failed", data: <all field errors>}`
and does not call `next()`; with no violations it calls `next()`. -/
theorem C6_validate_collects_all (rules : List ValidationRule) (body : Json) :
    (∀ r ∈ rules, r.check body = false →
      (⟨r.field, r.message⟩ : FieldError) ∈ runValidationChains rules body) ∧
    (runValidationChains rules body ≠ [] →
      validate rules body =
        .respond 400 (.jobj [("success", .jbool false),
          ("message", .jstr "Validation failed"),
          ("data", errorsToJson (runValidationChains rules body))])) ∧
    (runValidationChains rules body = [] → validate rules body = .next) := by
  refine ⟨fun r hr hc => ?_, fun hne => ?_, fun he => ?_⟩
  · simp only [runValidationChains, List.mem_filterMap]
    exact ⟨r, hr, by simp [hc]⟩
  · have hne' : (runValidationChains rules body).isEmpty = false := by
      cases h : runValidationChains rules body with
      | nil => exact absurd h hne
      | cons a l => rfl
    simp [validate, hne', ResponseUtil.error, errorsToJson, Json.truthy]
  · simp [validate, he]

/-- C6 (witness): a create-article body with `title` missing yields the 400
envelope carrying the field error, through the theorem's second conjunct. -/
theorem C6_validate_collects_all_witness :
    validate [{ field := "title", message := "Title is required", check := fun _ => false }]
        (Json.jobj []) =
      .respond 400 (.jobj [("success", .jbool false),
        ("message", .jstr "Validation failed"),
        ("data", errorsToJson (runValidationChains
          [{ field := "title", message := "Title is required", check := fun _ => false }]
          (Json.jobj [])))]) :=
  (C6_validate_collects_all
      [{ field := "title", message := "Title is required", check := fun _ => false }]
      (Json.jobj [])).2.1 (by decide)

/-- C8.  Every JSON response built by the `ResponseUtil` helpers has the
envelope shape `{success, message, data?, meta?}`: `success` keeps the
given status with `success: true`, `created` is `success` at 201, `error`
sets `success: false` and attaches `data` only when (truthy) errors are
supplied, and `paginated` attaches exactly the metadata computed by
`calculatePaginationMeta`, whose `totalPages` is the ceiling of
`total / limit`. -/
theorem C8_envelope_shape (data : Json) (msg : String) (status : Nat)
    (meta : Option PaginationMeta) (errs : Option Json) (items : List Json)
    (total page limit : Nat) (hl : 1 ≤ limit) :
    (ResponseUtil.success data msg status meta).1 = status ∧
    envelopeShape (ResponseUtil.success data msg status meta).2 = true ∧
    (ResponseUtil.success data msg status none).2 =
      .jobj [("success", .jbool true), ("message", .jstr msg), ("data", data)] ∧
    ResponseUtil.created data msg = ResponseUtil.success data msg 201 none ∧
    (ResponseUtil.created data msg).1 = 201 ∧
    (ResponseUtil.error msg status errs).1 = status ∧
    envelopeShape (ResponseUtil.error msg status errs).2 = true ∧
    (ResponseUtil.error msg status none).2 =
      .jobj [("success", .jbool false), ("message", .jstr msg)] ∧
    (∀ e : Json, e.truthy = true → (ResponseUtil.error msg status (some e)).2 =
      .jobj [("success", .jbool false), ("message", .jstr msg), ("data", e)]) ∧
    (∀ e : Json, e.truthy = false → (ResponseUtil.error msg status (some e)).2 =
      .jobj [("success", .jbool false), ("message", .jstr msg)]) ∧
    ResponseUtil.paginated items total page limit msg =
      ResponseUtil.success (.jarr items) msg 200
        (some (calculatePaginationMeta total page limit)) ∧
    (calculatePaginationMeta total page limit).totalPages = some (total ⌈/⌉ limit) ∧
    (∀ c : Nat, total ⌈/⌉ limit ≤ c ↔ total ≤ limit * c) := by
  refine ⟨rfl, ?_, rfl, rfl, rfl, rfl, ?_, rfl, ?_, ?_, rfl, ?_, ?_⟩
  · cases meta <;> rfl
  · rcases errs with _ | e
    · rfl
    · cases he : e.truthy <;> simp [ResponseUtil.error, he, envelopeShape]
  · intro e he
    simp [ResponseUtil.error, he]
  · intro e he
    simp [ResponseUtil.error, he]
  · have h0 : limit ≠ 0 := by omega
    simp [calculatePaginationMeta, mathCeilDiv, h0, Nat.ceilDiv_eq_add_pred_div]
  · intro c
    exact ceilDiv_le_iff_le_mul (by omega)

/-- C8 (witness): a paginated listing of 25 rows with limit 10 reports 3
total pages, the ceiling of 25/10. -/
theorem C8_envelope_shape_witness :
    (calculatePaginationMeta 25 1 10).totalPages = some (25 ⌈/⌉ 10) :=
  (C8_envelope_shape Json.jnull "Success" 200 none none [] 25 1 10
    (by decide)).2.2.2.2.2.2.2.2.2.2.2.1

/-- Helper: from the empty store, `n + 1` hits of the same client inside
one window leave a single counter entry holding `n + 1`. -/
theorem hitN_from_empty (w : Nat) (hw : 0 < w) (client : String) (now : Nat) :
    ∀ n, hitN w (n + 1) client now [] = [(client, n + 1, now)] := by
  intro n
  induction n with
  | zero =>
      simp [hitN, updateCounter, hitOnce]
  | succ n ih =>
      rw [show hitN w (n + 1 + 1) client now [] =
        updateCounter w (hitN w (n + 1) client now []) client now from rfl, ih]
      unfold updateCounter
      rw [List.find?_cons_of_pos _ (by simp)]
      have hlt : ¬ (now + w ≤ now) := by omega
      simp [hitOnce, hlt, List.filter_cons]

/-- Helper: reading the count back from a single-entry counter table. -/
theorem getCount_single (client : String) (k wstart : Nat) :
    getCount [(client, k, wstart)] client = k := by
  unfold getCount
  rw [List.find?_cons_of_pos _ (by simp)]
  rfl

/-- C9.  The five route groups carry exactly the stated quotas, windows and
messages — general 100 requests / 15 minutes (the environment defaults
900000 ms and 100), auth 5 / 15 minutes with `skipSuccessfulRequests` set,
newsletter 3 / hour, submissions 5 / hour, uploads 10 / 15 minutes — a
blocked request is answered 429 with the configured `{success: false,
message}` body, within one window the (max+1)-th request from a client is
the first one blocked, a response below status 400 (2xx in particular) is
un-counted exactly when the skip flag is set, and each group counts in its
own namespace: a hit on one group leaves every other group's counters
unchanged. -/
theorem C9_rate_limiter_configs :
    apiLimiter (envFrom none none) =
      { windowMs := some 900000, maxRequests := some 100,
        message := ⟨false, "Too many requests from this IP, please try again later."⟩,
        skipSuccessfulRequests := false,
        standardHeaders := some true, legacyHeaders := some false } ∧
    (900000 : Int) = 15 * 60 * 1000 ∧
    authLimiter =
      { windowMs := some (15 * 60 * 1000), maxRequests := some 5,
        message := ⟨false, "Too many login attempts, please try again after 15 minutes."⟩,
        skipSuccessfulRequests := true, standardHeaders := none, legacyHeaders := none } ∧
    newsletterLimiter =
      { windowMs := some (60 * 60 * 1000), maxRequests := some 3,
        message := ⟨false, "Too many subscription requests, please try again later."⟩,
        skipSuccessfulRequests := false, standardHeaders := none, legacyHeaders := none } ∧
    submissionLimiter =
      { windowMs := some (60 * 60 * 1000), maxRequests := some 5,
        message := ⟨false, "Too many submissions, please try again later."⟩,
        skipSuccessfulRequests := false, standardHeaders := none, legacyHeaders := none } ∧
    uploadLimiter =
      { windowMs := some (15 * 60 * 1000), maxRequests := some 10,
        message := ⟨false, "Too many upload requests, please try again later."⟩,
        skipSuccessfulRequests := false, standardHeaders := none, legacyHeaders := none } ∧
    (∀ cfg : RateLimitConfig, limiterRespond cfg =
      (429, .jobj [("success", .jbool cfg.message.success),
                   ("message", .jstr cfg.message.message)])) ∧
    (∀ w maxR : Nat, ∀ client : String, ∀ now : Nat, 0 < w →
      (∀ n, n ≤ maxR →
        limiterBlocks maxR (getCount (hitN w n client now []) client) = false) ∧
      limiterBlocks maxR (getCount (hitN w (maxR + 1) client now []) client) = true) ∧
    (∀ status count : Nat, status < 400 → onResponseFinish true status (count + 1) = count) ∧
    (∀ status count : Nat, onResponseFinish false status count = count) ∧
    (∀ (s : RateLimiterStores) (w : Nat) (client : String) (now : Nat),
      (hitAuthGroup s w client now).api = s.api ∧
      (hitAuthGroup s w client now).newsletter = s.newsletter ∧
      (hitAuthGroup s w client now).submission = s.submission ∧
      (hitAuthGroup s w client now).upload = s.upload) ∧
    (∀ (s : RateLimiterStores) (w : Nat) (client : String) (now : Nat),
      (hitApiGroup s w client now).auth = s.auth ∧
      (hitApiGroup s w client now).newsletter = s.newsletter ∧
      (hitApiGroup s w client now).submission = s.submission ∧
      (hitApiGroup s w client now).upload = s.upload) := by
  refine ⟨by decide, by decide, rfl, rfl, rfl, rfl, fun cfg => rfl, ?_, ?_, ?_, ?_, ?_⟩
  · intro w maxR client now hw
    constructor
    · intro n hn
      cases n with
      | zero => simp [hitN, getCount, limiterBlocks]
      | succ m =>
          rw [hitN_from_empty w hw client now m, getCount_single]
          simp [limiterBlocks]
          omega
    · rw [hitN_from_empty w hw client now maxR, getCount_single]
      simp [limiterBlocks]
  · intro status count h
    simp [onResponseFinish, h]
  · intro status count
    simp [onResponseFinish]
  · intro s w client now
    exact ⟨rfl, rfl, rfl, rfl⟩
  · intro s w client now
    exact ⟨rfl, rfl, rfl, rfl⟩

/-- C9 (witness): with the auth quota of 5 per window, the 6th rapid login
attempt from one address is blocked and the 5th is not. -/
theorem C9_rate_limiter_configs_witness :
    limiterBlocks 5 (getCount (hitN 900000 6 "203.0.113.7" 0 []) "203.0.113.7") = true ∧
    limiterBlocks 5 (getCount (hitN 900000 5 "203.0.113.7" 0 []) "203.0.113.7") = false :=
  ⟨(C9_rate_limiter_configs.2.2.2.2.2.2.2.1 900000 5 "203.0.113.7" 0 (by decide)).2,
   (C9_rate_limiter_configs.2.2.2.2.2.2.2.1 900000 5 "203.0.113.7" 0 (by decide)).1 5
     (by decide)⟩

/-- C10.  `AuthService.login` answers a non-existent email and a wrong
password for an existing active account with the very same
`AppError('Invalid credentials', 401)` — the two outcomes are equal, so the
response does not reveal whether the email is registered — while a
deactivated existing account is the one case answered with the distinct
`AppError('Account is deactivated', 401)`. -/
theorem C10_login_indistinguishable
    (compare : String → String → Bool)
    (genA : String → String → String → String) (genR : String → String)
    (db1 db2 : List UserRecord) (d1 d2 : LoginData) (u : UserRecord)
    (h1 : findUniqueByEmail db1 d1.email = none)
    (h2 : findUniqueByEmail db2 d2.email = some u)
    (hact : u.isActive = true)
    (hpw : compare d2.password u.password = false) :
    login compare genA genR db1 d1 = .failure "Invalid credentials" 401 ∧
    login compare genA genR db2 d2 = .failure "Invalid credentials" 401 ∧
    login compare genA genR db1 d1 = login compare genA genR db2 d2 ∧
    (∀ (db : List UserRecord) (d : LoginData) (v : UserRecord),
      findUniqueByEmail db d.email = some v → v.isActive = false →
      login compare genA genR db d = .failure "Account is deactivated" 401) := by
  have hA : login compare genA genR db1 d1 = .failure "Invalid credentials" 401 := by
    simp [login, h1]
  have hB : login compare genA genR db2 d2 = .failure "Invalid credentials" 401 := by
    simp [login, h2, hact, hpw]
  refine ⟨hA, hB, hA.trans hB.symm, fun db d v hv hi => ?_⟩
  simp [login, hv, hi]

/-- C10 (witness): an unknown email and a wrong password against the demo
user produce the identical 401 "Invalid credentials" error. -/
theorem C10_login_indistinguishable_witness :
    login (fun _ _ => false) (fun _ _ _ => "at") (fun _ => "rt")
        [] ⟨"ghost@example.com", "pw"⟩ = .failure "Invalid credentials" 401 ∧
    login (fun _ _ => false) (fun _ _ _ => "at") (fun _ => "rt")
        [demoDbUser] ⟨"admin@mutualsplus.com", "wrong-pw"⟩ =
      .failure "Invalid credentials" 401 :=
  ⟨(C10_login_indistinguishable (fun _ _ => false) (fun _ _ _ => "at") (fun _ => "rt")
      [] [demoDbUser] ⟨"ghost@example.com", "pw"⟩ ⟨"admin@mutualsplus.com", "wrong-pw"⟩
      demoDbUser rfl rfl rfl rfl).1,
   (C10_login_indistinguishable (fun _ _ => false) (fun _ _ _ => "at") (fun _ => "rt")
      [] [demoDbUser] ⟨"ghost@example.com", "pw"⟩ ⟨"admin@mutualsplus.com", "wrong-pw"⟩
      demoDbUser rfl rfl rfl rfl).2.1⟩

end Mutuals
